import Mathlib

/-!
Shallow embedding of the AWS IoT Device Client's feature-lifecycle orchestrator
(`source/main.cpp`) and of its layered configuration resolver, together with
proofs of the lifecycle and configuration properties stated in the design
document.

Features are identified by natural numbers (the C++ code identifies them by
`Feature*` pointers; only identity/equality of handles matters to the
orchestrator).  The mutable globals of `main.cpp` (`features`,
`attemptingShutdown`) together with the observable process effects (calls to
`stop()`, logger shutdowns, `exit`, `abort`, error-log lines) are collected in
an explicit `ProcState` record, and each C++ function becomes a state
transformer.  The registry lock of `main.cpp` makes each event handler's
registry mutation together with its size check atomic, so concurrent event
deliveries are modelled as atomic state transformers applied in an arbitrary
interleaving order.
-/

namespace DeviceClient

/-- Observable process state: the global registry and shutdown flag of
`main.cpp`, plus the externally observable effects of the orchestrator
(feature `stop()` calls, logger shutdowns, process exit/abort, error log). -/
structure ProcState where
  /-- global `vector<Feature*> features` (registration order preserved) -/
  features : List Nat
  /-- global `bool attemptingShutdown` -/
  attemptingShutdown : Bool
  /-- number of times control entered the `shutdown()` function -/
  shutdownEntered : Nat
  /-- sequence of features on which `stop()` has been invoked -/
  stops : List Nat
  /-- number of `LoggerFactory::getLoggerInstance()->shutdown()` calls -/
  loggerShutdowns : Nat
  /-- the process called `exit` -/
  exited : Bool
  /-- argument of the `exit` call, when one happened -/
  exitCode : Option Nat
  /-- the process called `abort` (abnormal termination) -/
  aborted : Bool
  /-- error-level log lines emitted so far -/
  errorLog : List String
  deriving Repr, DecidableEq

/-- The `shutdown()` function of `main.cpp` (lines 30-49): on the first call it
sets `attemptingShutdown`, snapshots the registry under the lock, calls
`stop()` on every snapshotted feature and shuts the logger down; on any later
call it only shuts the logger down and terminates the process via `exit(0)`. -/
def shutdown (s : ProcState) : ProcState :=
  if s.attemptingShutdown = false then
    { s with
      shutdownEntered := s.shutdownEntered + 1
      attemptingShutdown := true
      stops := s.stops ++ s.features
      loggerShutdowns := s.loggerShutdowns + 1 }
  else
    { s with
      shutdownEntered := s.shutdownEntered + 1
      loggerShutdowns := s.loggerShutdowns + 1
      exited := true
      exitCode := some 0 }

/-- The erase loop of `handle_feature_stopped` (`main.cpp` lines 54-60):
`for(i = 0; i < features.size(); i++) if (features.at(i) == feature)
features.erase(features.begin() + i);`.  After an erase at index `i` the
element shifted into position `i` is skipped, because `i` is still
incremented; the recursion mirrors that exactly. -/
def eraseFeature (f : Nat) : List Nat → List Nat
  | [] => []
  | x :: xs =>
    if x = f then
      match xs with
      | [] => []
      | y :: ys => y :: eraseFeature f ys
    else
      x :: eraseFeature f xs

/-- `handle_feature_stopped` of `main.cpp` (lines 51-69): under the registry
lock, erase the stopped feature and read the new size; after unlocking, if the
size was zero, call `shutdown()`. -/
def handle_feature_stopped (f : Nat) (s : ProcState) : ProcState :=
  let rest := eraseFeature f s.features
  if rest.length = 0 then
    shutdown { s with features := rest }
  else
    { s with features := rest }

/-- The error kinds dispatched by `DefaultClientBaseNotifier::onError`. -/
inductive ErrorNotification where
  | SUBSCRIPTION_REJECTED
  | MESSAGE_RECEIVED_AFTER_SHUTDOWN
  deriving Repr, DecidableEq

/-- Log line of the `default:` case of the `onError` switch. -/
def defaultCaseLog : String :=
  "DefaultClientBaseNotifier hit default ERROR switch case for feature: "

/-- Log line of the debug-build fatal block at the end of `onError`. -/
def fatalErrorLog : String :=
  "*** DC FATAL ERROR: Aborting program due to unrecoverable feature error! ***"

/-- `DefaultClientBaseNotifier::onError` of `main.cpp` (lines 94-115).
`ndebug` is true for a release build (`NDEBUG` defined) and false for a debug
build.  The switch logs `SUBSCRIPTION_REJECTED` and breaks, while the
`MESSAGE_RECEIVED_AFTER_SHUTDOWN` case has no `break` and falls through into
the `default:` case, logging twice.  The `#ifdef NDEBUG` block sits after the
switch, inside the function: in a debug build every error kind reaches the
fatal block, which logs, shuts the logger down and calls `abort()`. -/
def onError (ndebug : Bool) (e : ErrorNotification) (msg : String)
    (s : ProcState) : ProcState :=
  let s1 :=
    match e with
    | .SUBSCRIPTION_REJECTED =>
      { s with errorLog := s.errorLog ++ ["Subscription rejected: " ++ msg] }
    | .MESSAGE_RECEIVED_AFTER_SHUTDOWN =>
      { s with errorLog := s.errorLog ++
          ["Received message after feature shutdown: " ++ msg, defaultCaseLog] }
  if ndebug then
    s1
  else
    { s1 with
      errorLog := s1.errorLog ++ [fatalErrorLog]
      loggerShutdowns := s1.loggerShutdowns + 1
      aborted := true }

/-- Exit code returned by `main` when CLI parsing or `config.init` fails
(`main.cpp` lines 121-125: `return 0`). -/
def mainConfigFailureExitCode : Nat := 0

/-- Initial orchestrator state after `main` has registered the features `fs`
and started them: registry populated, no shutdown attempted, no effects yet. -/
def initState (fs : List Nat) : ProcState :=
  { features := fs
    attemptingShutdown := false
    shutdownEntered := 0
    stops := []
    loggerShutdowns := 0
    exited := false
    exitCode := none
    aborted := false
    errorLog := [] }

/-- Deliver a sequence of STOPPED events (each handled atomically by
`handle_feature_stopped`) in the given order. -/
def deliverStopped (p : List Nat) (s : ProcState) : ProcState :=
  p.foldl (fun st f => handle_feature_stopped f st) s

/-!
Configuration resolver.  The implementation file `source/config/Config.cpp` is
not part of this source tree — only its unit tests
(`test/config/TestConfig.cpp`) are — so the resolver is modelled from the
design document's description of `resolve(fileJson, cliArgs, env)`, and every
concrete behavior the model exhibits is cross-checked against the assertions
of `TestConfig.cpp`.
-/

/-- ASCII lower-casing of one character. -/
def toLowerAscii (c : Char) : Char :=
  if 65 ≤ c.toNat && c.toNat ≤ 90 then Char.ofNat (c.toNat + 32) else c

/-- ASCII upper-casing of one character. -/
def toUpperAscii (c : Char) : Char :=
  if 97 ≤ c.toNat && c.toNat ≤ 122 then Char.ofNat (c.toNat - 32) else c

/-- ASCII lower-casing of a string. -/
def lowerAscii (s : String) : String := ⟨s.data.map toLowerAscii⟩

/-- ASCII upper-casing of a string. -/
def upperAscii (s : String) : String := ⟨s.data.map toUpperAscii⟩

/-- Modelled from the spec: the case-insensitive map from log level strings to
ordinal severities (error=0, warn=1, info=2, debug=3); an unrecognized string
maps to nothing.  (`source/config/Config.cpp` is missing; the ordinals for
"DEBUG" = 3 and "warn" = 1 are asserted by `TestConfig.cpp`.) -/
def parseLogLevel (s : String) : Option Nat :=
  match upperAscii s with
  | "ERROR" => some 0
  | "WARN" => some 1
  | "INFO" => some 2
  | "DEBUG" => some 3
  | _ => none

/-- Modelled from the spec: the static service-name-to-port lookup used by
tunneling ("SSH" maps to 22); unknown services map to nothing.
(`GetPortFromService` lives in the missing tunneling sources; the "SSH" = 22
mapping is asserted by `TestConfig.cpp`.) -/
def GetPortFromService (s : String) : Option Nat :=
  match s with
  | "SSH" => some 22
  | _ => none

/-- Resolved logging sub-config (`PlainConfig::LogConfig`). -/
structure LogConfig where
  logLevel : Nat
  type : String
  file : String
  deriving Repr, DecidableEq

/-- Resolved tunneling sub-config (`PlainConfig::Tunneling`). -/
structure Tunneling where
  enabled : Bool
  region : Option String
  service : Option String
  destinationAccessToken : Option String
  port : Option Nat
  subscribeNotification : Bool
  deriving Repr, DecidableEq

/-- Resolved top-level configuration (`PlainConfig`): identity fields stay
optional until validation; feature sub-configs carry their enabled flags. -/
structure PlainConfig where
  endpoint : Option String
  cert : Option String
  key : Option String
  rootCa : Option String
  thingName : Option String
  logConfig : LogConfig
  jobsEnabled : Bool
  deviceDefenderEnabled : Bool
  fleetProvisioningEnabled : Bool
  tunneling : Tunneling
  deriving Repr, DecidableEq

/-- One source layer (file JSON, CLI arguments, or environment): a partial,
optionally-absent view of the configuration fields.  The
disable-notification CLI flag is presence-only, so it is a `Bool`. -/
structure SourceLayer where
  endpoint : Option String
  cert : Option String
  key : Option String
  rootCa : Option String
  thingName : Option String
  logLevel : Option String
  logType : Option String
  logFile : Option String
  jobsEnabled : Option Bool
  tunnelingEnabled : Option Bool
  deviceDefenderEnabled : Option Bool
  fleetProvisioningEnabled : Option Bool
  tunnelingRegion : Option String
  tunnelingService : Option String
  tunnelingToken : Option String
  tunnelingPort : Option Nat
  tunnelingDisableNotification : Bool
  deriving Repr, DecidableEq

/-- A source layer that supplies nothing. -/
def emptyLayer : SourceLayer :=
  { endpoint := none
    cert := none
    key := none
    rootCa := none
    thingName := none
    logLevel := none
    logType := none
    logFile := none
    jobsEnabled := none
    tunnelingEnabled := none
    deviceDefenderEnabled := none
    fleetProvisioningEnabled := none
    tunnelingRegion := none
    tunnelingService := none
    tunnelingToken := none
    tunnelingPort := none
    tunnelingDisableNotification := false }

/-- Modelled from the spec: field-by-field overwrite — a higher-precedence
layer overwrites a field only if it explicitly supplies a value; absence
never overwrites presence. -/
def mergeField (lower higher : Option α) : Option α :=
  match higher with
  | some v => some v
  | none => lower

/-- A present layer value replaces the current resolved value; an absent one
keeps it. -/
def applyOpt (cur : α) : Option α → α
  | some v => v
  | none => cur

/-- Modelled from the spec: built-in defaults — jobs, tunneling and
device-defender default to enabled, fleet-provisioning to disabled,
`subscribeNotification` to true; identity and tunneling value fields are
absent by default.  (Matches the defaults asserted by `TestConfig.cpp`
`HappyCaseMinimumConfig`/`SecureTunnelingMinimumConfig`.) -/
def defaultConfig : PlainConfig :=
  { endpoint := none
    cert := none
    key := none
    rootCa := none
    thingName := none
    logConfig := { logLevel := 2, type := "stdout", file := "" }
    jobsEnabled := true
    deviceDefenderEnabled := true
    fleetProvisioningEnabled := false
    tunneling :=
      { enabled := true
        region := none
        service := none
        destinationAccessToken := none
        port := none
        subscribeNotification := true } }

/-- Modelled from the spec: apply one source layer on top of the
configuration resolved so far, field by field; log level strings are mapped
to ordinals, the log type is normalized to lower case (`TestConfig.cpp`
`LoggingConfigurationCLI` resolves CLI "FILE" to "file"), and the
presence-only disable-notification flag forces `subscribeNotification` to
false. -/
def loadLayer (c : PlainConfig) (l : SourceLayer) : PlainConfig :=
  { endpoint := mergeField c.endpoint l.endpoint
    cert := mergeField c.cert l.cert
    key := mergeField c.key l.key
    rootCa := mergeField c.rootCa l.rootCa
    thingName := mergeField c.thingName l.thingName
    logConfig :=
      { logLevel := applyOpt c.logConfig.logLevel (l.logLevel.bind parseLogLevel)
        type := applyOpt c.logConfig.type (l.logType.map lowerAscii)
        file := applyOpt c.logConfig.file l.logFile }
    jobsEnabled := applyOpt c.jobsEnabled l.jobsEnabled
    deviceDefenderEnabled := applyOpt c.deviceDefenderEnabled l.deviceDefenderEnabled
    fleetProvisioningEnabled :=
      applyOpt c.fleetProvisioningEnabled l.fleetProvisioningEnabled
    tunneling :=
      { enabled := applyOpt c.tunneling.enabled l.tunnelingEnabled
        region := mergeField c.tunneling.region l.tunnelingRegion
        service := mergeField c.tunneling.service l.tunnelingService
        destinationAccessToken :=
          mergeField c.tunneling.destinationAccessToken l.tunnelingToken
        port := mergeField c.tunneling.port l.tunnelingPort
        subscribeNotification :=
          if l.tunnelingDisableNotification then false
          else c.tunneling.subscribeNotification } }

/-- Modelled from the spec: `resolve(fileJson, cliArgs, env)` — layers applied
lowest precedence first over the built-in defaults: defaults, then file-based
JSON, then CLI arguments, then environment (mirroring the
`LoadFromJson`/`LoadFromCliArgs`/`LoadFromEnvironment` sequence of
`TestConfig.cpp`). -/
def resolveConfig (file cli env : SourceLayer) : PlainConfig :=
  loadLayer (loadLayer (loadLayer defaultConfig file) cli) env

/-- Modelled from the spec: the port a tunneling configuration resolves to —
an explicit port always takes precedence; a service name without an explicit
port resolves through the static service-to-port lookup. -/
def resolvedPort (t : Tunneling) : Option Nat :=
  match t.port with
  | some p => some p
  | none => t.service.bind GetPortFromService

/-- All five top-level identity fields are present. -/
def identityPresent (c : PlainConfig) : Bool :=
  c.endpoint.isSome && c.cert.isSome && c.key.isSome && c.rootCa.isSome &&
    c.thingName.isSome

/-- File layer of the `LoggingConfigurationCLI` test: logging level "DEBUG",
type "STDOUT", file "old-json-log.log". -/
def fileLayerLogging : SourceLayer :=
  { emptyLayer with
    logLevel := some "DEBUG"
    logType := some "STDOUT"
    logFile := some "old-json-log.log" }

/-- CLI layer of the `LoggingConfigurationCLI` test: level "warn", type
"FILE", file "./client.log". -/
def cliLayerLogging : SourceLayer :=
  { emptyLayer with
    logLevel := some "warn"
    logType := some "FILE"
    logFile := some "./client.log" }

/-- File layer of the `SecureTunnelingCli`/`SecureTunnelingMinimumConfig`
tests: all identity fields plus tunneling enabled. -/
def fileLayerTunneling : SourceLayer :=
  { emptyLayer with
    endpoint := some "endpoint value"
    cert := some "cert"
    key := some "key"
    rootCa := some "root-ca"
    thingName := some "thing-name value"
    tunnelingEnabled := some true }

/-- CLI layer of the `SecureTunnelingCli` test: region, service "SSH" and the
presence-only disable-notification flag. -/
def cliLayerTunneling : SourceLayer :=
  { emptyLayer with
    tunnelingRegion := some "region value"
    tunnelingService := some "SSH"
    tunnelingDisableNotification := true }

/-- Environment layer of the `SecureTunnelingCli` test: the tunnel access
token variable. -/
def envLayerTunneling : SourceLayer :=
  { emptyLayer with tunnelingToken := some "destination_access_token_value" }

/-- File layer of the `MissingSomeSettings` test: endpoint missing, the other
identity fields present. -/
def fileLayerMissingEndpoint : SourceLayer :=
  { emptyLayer with
    cert := some "cert"
    key := some "key"
    rootCa := some "root-ca"
    thingName := some "thing-name value" }

/-- Modelled from the spec: `Validate` — the top-level identity fields
(endpoint, cert, key, root-ca, thing-name) are required unless the deployment
mode is tunneling-only, in which case only tunneling-relevant validation
applies.  Per `TestConfig.cpp` the tunneling sub-config imposes no further
requirement on `Validate`: `SecureTunnelingMinimumConfig` asserts a valid
config with tunneling enabled and neither port nor service supplied, and
`MissingSomeSettings` asserts that in tunneling-only mode a config with no
tunneling fields at all validates. -/
def Validate (tunnelingOnlyMode : Bool) (c : PlainConfig) : Bool :=
  if tunnelingOnlyMode then true else identityPresent c

/-! Helper lemmas about the registry erase loop. -/

/-- Unfolding: a non-matching head is kept and the loop continues. -/
theorem eraseFeature_cons_ne {f x : Nat} (xs : List Nat) (h : x ≠ f) :
    eraseFeature f (x :: xs) = x :: eraseFeature f xs := by
  rw [eraseFeature.eq_def]
  simp [h]

/-- Unfolding: a matching head with an empty tail leaves the empty list. -/
theorem eraseFeature_singleton (f : Nat) : eraseFeature f [f] = [] := by
  rw [eraseFeature.eq_def]
  simp

/-- Unfolding: after erasing a matching head the next element is skipped. -/
theorem eraseFeature_cons_skip (f y : Nat) (ys : List Nat) :
    eraseFeature f (f :: y :: ys) = y :: eraseFeature f ys := by
  rw [eraseFeature.eq_def]
  simp

/-- Erasing a feature that is not in the registry leaves it unchanged. -/
theorem eraseFeature_of_not_mem {f : Nat} :
    ∀ {l : List Nat}, f ∉ l → eraseFeature f l = l := by
  intro l
  induction l with
  | nil => intro _; rfl
  | cons x xs ih =>
    intro h
    have hx : x ≠ f := fun he => h (he ▸ List.mem_cons_self x xs)
    have hxs : f ∉ xs := fun hm => h (List.mem_cons_of_mem x hm)
    rw [eraseFeature_cons_ne xs hx, ih hxs]

/-- On a duplicate-free registry the C++ erase loop agrees with `List.erase`:
it removes exactly the (single) occurrence of the feature. -/
theorem eraseFeature_eq_erase {f : Nat} :
    ∀ {l : List Nat}, l.Nodup → eraseFeature f l = l.erase f := by
  intro l
  induction l with
  | nil => intro _; rfl
  | cons x xs ih =>
    intro hnd
    rcases List.nodup_cons.mp hnd with ⟨hx, hxs⟩
    by_cases hxf : x = f
    · subst hxf
      rw [List.erase_cons_head]
      cases xs with
      | nil => exact eraseFeature_singleton x
      | cons y ys =>
        have hys : x ∉ ys := fun hm => hx (List.mem_cons_of_mem y hm)
        rw [eraseFeature_cons_skip, eraseFeature_of_not_mem hys]
    · rw [List.erase_cons_tail, eraseFeature_cons_ne xs hxf, ih hxs]
      simp [hxf]

/-- `handle_feature_stopped` on a nonempty remainder only shrinks the
registry. -/
theorem handle_feature_stopped_of_rest_ne {f : Nat} {s : ProcState}
    (h : (eraseFeature f s.features).length ≠ 0) :
    handle_feature_stopped f s = { s with features := eraseFeature f s.features } := by
  simp [handle_feature_stopped, h]

/-- Delivering STOPPED for every registered feature, in any order, empties the
registry and enters `shutdown()` exactly once more than before. -/
theorem deliverStopped_perm :
    ∀ (p : List Nat) (s : ProcState), s.features.Nodup → p.Perm s.features →
      s.attemptingShutdown = false → p ≠ [] →
      (deliverStopped p s).shutdownEntered = s.shutdownEntered + 1 ∧
      (deliverStopped p s).features = [] := by
  intro p
  induction p with
  | nil => intro s _ _ _ h; exact absurd rfl h
  | cons x xs ih =>
    intro s hnd hperm hflag _
    have hxs : xs.Perm (s.features.erase x) :=
      (List.cons_perm_iff_perm_erase.mp hperm).2
    cases xs with
    | nil =>
      have hfs : s.features = [x] := List.perm_singleton.mp hperm.symm
      simp [deliverStopped, handle_feature_stopped, hfs, eraseFeature,
        shutdown, hflag]
    | cons y ys =>
      have herase : eraseFeature x s.features = s.features.erase x :=
        eraseFeature_eq_erase hnd
      have hlen : (eraseFeature x s.features).length ≠ 0 := by
        rw [herase, ← hxs.length_eq]
        simp
      have hstep : handle_feature_stopped x s =
          { s with features := eraseFeature x s.features } :=
        handle_feature_stopped_of_rest_ne hlen
      have hfold : deliverStopped (x :: y :: ys) s =
          deliverStopped (y :: ys) (handle_feature_stopped x s) := rfl
      rw [hfold, hstep]
      have := ih { s with features := eraseFeature x s.features }
        (by rw [herase]; exact hnd.erase x)
        (by rw [herase] at *; exact hxs) hflag (by simp)
      simpa using this

/-- `shutdown` preserves the registry and always counts one more entry. -/
theorem shutdown_features_entered (t : ProcState) :
    (shutdown t).features = t.features ∧
    (shutdown t).shutdownEntered = t.shutdownEntered + 1 := by
  unfold shutdown
  split <;> simp

/-- Claim C1: for every duplicate-free registry of N features (N ≥ 1),
delivering a STOPPED event for each of the N features, in any order, enters
`shutdown()` exactly once: each STOPPED removes its handle under the registry
lock and only the delivery that leaves the registry empty invokes
`shutdown()`. -/
theorem claim_C1_stopped_all_shutdown_once (fs p : List Nat)
    (hnd : fs.Nodup) (hp : p.Perm fs) (hne : fs ≠ []) :
    (deliverStopped p (initState fs)).shutdownEntered = 1 ∧
    (deliverStopped p (initState fs)).features = [] := by
  have hpne : p ≠ [] := by
    intro hpnil
    subst hpnil
    exact hne hp.symm.eq_nil
  have h := deliverStopped_perm p (initState fs) hnd hp rfl hpne
  simpa [initState] using h

/-- Concrete run of claim C1: three features stopped in the order 2, 0, 1. -/
theorem claim_C1_witness :
    (deliverStopped [2, 0, 1] (initState [0, 1, 2])).shutdownEntered = 1 ∧
    (deliverStopped [2, 0, 1] (initState [0, 1, 2])).features = [] :=
  claim_C1_stopped_all_shutdown_once [0, 1, 2] [2, 0, 1]
    (by decide) (by decide) (by decide)

/-- Claim C2: a second `shutdown()` call never invokes `stop()` on any
feature again — the first call is the only one that iterates over the
registry snapshot calling `stop()`; the second call only releases logging
resources and terminates the process. -/
theorem claim_C2_second_shutdown_no_restop (s : ProcState)
    (h : s.attemptingShutdown = false) :
    (shutdown s).stops = s.stops ++ s.features ∧
    (shutdown (shutdown s)).stops = (shutdown s).stops ∧
    (shutdown (shutdown s)).exited = true ∧
    (shutdown (shutdown s)).loggerShutdowns = (shutdown s).loggerShutdowns + 1 := by
  simp [shutdown, h]

/-- Concrete run of claim C2 from the started single-feature state. -/
theorem claim_C2_witness :
    (shutdown (initState [5])).stops =
      (initState [5]).stops ++ (initState [5]).features ∧
    (shutdown (shutdown (initState [5]))).stops = (shutdown (initState [5])).stops ∧
    (shutdown (shutdown (initState [5]))).exited = true ∧
    (shutdown (shutdown (initState [5]))).loggerShutdowns =
      (shutdown (initState [5])).loggerShutdowns + 1 :=
  claim_C2_second_shutdown_no_restop (initState [5]) rfl

/-- Claim C9: a STOPPED delivery for a feature handle not present in the
registry leaves the registry contents unchanged; if the registry was already
empty, the handler still observes size zero and enters `shutdown()`. -/
theorem claim_C9_unknown_feature_stopped (f : Nat) (s : ProcState)
    (h : f ∉ s.features) :
    (handle_feature_stopped f s).features = s.features ∧
    (s.features = [] →
      (handle_feature_stopped f s).shutdownEntered = s.shutdownEntered + 1) := by
  have he : eraseFeature f s.features = s.features := eraseFeature_of_not_mem h
  constructor
  · simp only [handle_feature_stopped, he]
    split
    · exact (shutdown_features_entered _).1
    · rfl
  · intro hempty
    simp only [handle_feature_stopped, he, hempty, List.length_nil, if_pos]
    exact (shutdown_features_entered _).2

/-- Concrete run of claim C9: an unknown handle delivered to the empty
registry shuts the process down. -/
theorem claim_C9_witness :
    (handle_feature_stopped 7 (initState [])).features = (initState []).features ∧
    ((initState []).features = [] →
      (handle_feature_stopped 7 (initState [])).shutdownEntered =
        (initState []).shutdownEntered + 1) :=
  claim_C9_unknown_feature_stopped 7 (initState []) (by decide)

/-- Claim C10: the second `shutdown()` call terminates the process via
`exit(0)` — the same success status as `main`'s startup-configuration-failure
`return 0` — not an abnormal termination. -/
theorem claim_C10_second_shutdown_exit_zero (s : ProcState)
    (h : s.attemptingShutdown = false) :
    (shutdown (shutdown s)).exited = true ∧
    (shutdown (shutdown s)).exitCode = some 0 ∧
    (shutdown (shutdown s)).aborted = s.aborted ∧
    (shutdown (shutdown s)).exitCode = some mainConfigFailureExitCode := by
  simp [shutdown, h, mainConfigFailureExitCode]

/-- Concrete run of claim C10 from the started empty-registry state. -/
theorem claim_C10_witness :
    (shutdown (shutdown (initState []))).exited = true ∧
    (shutdown (shutdown (initState []))).exitCode = some 0 ∧
    (shutdown (shutdown (initState []))).aborted = (initState []).aborted ∧
    (shutdown (shutdown (initState []))).exitCode = some mainConfigFailureExitCode :=
  claim_C10_second_shutdown_exit_zero (initState []) rfl

/-- Claim C3 counterexample: in the debug build configuration (`NDEBUG`
undefined) a SUBSCRIPTION_REJECTED error delivery aborts the process — the
fatal block of `onError` sits after the switch and runs for every error kind
— so the delivery is not non-fatal in every build configuration. -/
theorem claim_C3_counterexample :
    (onError false .SUBSCRIPTION_REJECTED "rejected" (initState [0])).aborted =
      true := rfl

/-- Claim C3 (amended): a SUBSCRIPTION_REJECTED error delivery logs the error
and, in the release (NDEBUG) build configuration, is non-fatal — the process
does not terminate and no state beyond the error log changes; in the debug
build configuration the trailing fatal block aborts the process. -/
theorem claim_C3_subscription_rejected (msg : String) (s : ProcState) :
    onError true .SUBSCRIPTION_REJECTED msg s =
      { s with errorLog := s.errorLog ++ ["Subscription rejected: " ++ msg] } ∧
    (onError false .SUBSCRIPTION_REJECTED msg s).aborted = true :=
  ⟨rfl, rfl⟩

/-- Claim C4: a MESSAGE_RECEIVED_AFTER_SHUTDOWN error delivery logs the error
(and, lacking a `break`, also the default case's line); in the debug (strict)
build configuration the process aborts, while in the release (permissive)
build configuration it only logs and the process continues unchanged. -/
theorem claim_C4_message_after_shutdown (msg : String) (s : ProcState) :
    onError true .MESSAGE_RECEIVED_AFTER_SHUTDOWN msg s =
      { s with errorLog := s.errorLog ++
          ["Received message after feature shutdown: " ++ msg, defaultCaseLog] } ∧
    (onError false .MESSAGE_RECEIVED_AFTER_SHUTDOWN msg s).aborted = true ∧
    (onError false .MESSAGE_RECEIVED_AFTER_SHUTDOWN msg s).errorLog =
      s.errorLog ++ ["Received message after feature shutdown: " ++ msg,
        defaultCaseLog, fatalErrorLog] := by
  refine ⟨rfl, rfl, ?_⟩
  simp [onError]

/-- Claim C5: for every Option-valued configuration field and every
combination of the four source layers, the resolved value is that of the
highest-precedence layer (defaults < file < CLI < environment) that
explicitly supplies the field, and a layer that does not supply the field
never overwrites a lower layer's value; the per-field merge chain is exactly
what `resolveConfig` applies (shown for the endpoint field); and in the
`LoggingConfigurationCLI` scenario — file sets level DEBUG, type STDOUT, file
old-json-log.log, CLI sets level warn, type FILE, file ./client.log — the
resolved config has log level ordinal 1, type "file" and file
"./client.log". -/
theorem claim_C5_layer_precedence :
    (∀ (α : Type) (d f c e : Option α) (v : α),
      (e = some v →
        mergeField (mergeField (mergeField d f) c) e = some v) ∧
      (e = none → c = some v →
        mergeField (mergeField (mergeField d f) c) e = some v) ∧
      (e = none → c = none → f = some v →
        mergeField (mergeField (mergeField d f) c) e = some v) ∧
      (e = none → c = none → f = none →
        mergeField (mergeField (mergeField d f) c) e = d)) ∧
    (∀ file cli env : SourceLayer,
      (resolveConfig file cli env).endpoint =
        mergeField (mergeField (mergeField defaultConfig.endpoint file.endpoint)
          cli.endpoint) env.endpoint) ∧
    (resolveConfig fileLayerLogging cliLayerLogging emptyLayer).logConfig.logLevel
      = 1 ∧
    (resolveConfig fileLayerLogging cliLayerLogging emptyLayer).logConfig.type
      = "file" ∧
    (resolveConfig fileLayerLogging cliLayerLogging emptyLayer).logConfig.file
      = "./client.log" := by
  refine ⟨?_, fun file cli env => rfl, by decide, by decide, by decide⟩
  intro α d f c e v
  exact ⟨fun he => by subst he; rfl,
    fun he hc => by subst he; subst hc; rfl,
    fun he hc hf => by subst he; subst hc; subst hf; rfl,
    fun he hc hf => by subst he; subst hc; subst hf; rfl⟩

/-- Concrete check of claim C5: a value supplied by every layer resolves to
the environment's value. -/
theorem claim_C5_witness :
    mergeField (mergeField (mergeField (some 7) (some 8)) (some 9))
      (some (10 : Nat)) = some 10 :=
  (claim_C5_layer_precedence.1 Nat (some 7) (some 8) (some 9) (some 10) 10).1 rfl

/-- Claim C6: whenever the environment layer supplies the tunneling
destination access token, the resolved token equals the environment value,
regardless of what defaults, file or CLI supplied. -/
theorem claim_C6_env_token_authoritative (file cli env : SourceLayer)
    (tok : String) (h : env.tunnelingToken = some tok) :
    (resolveConfig file cli env).tunneling.destinationAccessToken = some tok := by
  simp [resolveConfig, loadLayer, mergeField, h]

/-- Concrete run of claim C6: the `SecureTunnelingCli` scenario, where the
environment supplies the token. -/
theorem claim_C6_witness :
    (resolveConfig fileLayerTunneling cliLayerTunneling
        envLayerTunneling).tunneling.destinationAccessToken =
      some "destination_access_token_value" :=
  claim_C6_env_token_authoritative fileLayerTunneling cliLayerTunneling
    envLayerTunneling "destination_access_token_value" rfl

/-- Claim C7: a configuration missing one or more top-level identity fields
fails validation when the deployment mode is not tunneling-only, and the same
configuration validates when the deployment mode is tunneling-only. -/
theorem claim_C7_identity_required_unless_tunneling_only (c : PlainConfig)
    (h : identityPresent c = false) :
    Validate false c = false ∧ Validate true c = true := by
  simp [Validate, h]

/-- Concrete run of claim C7: the `MissingSomeSettings` input (endpoint
missing). -/
theorem claim_C7_witness :
    Validate false (resolveConfig fileLayerMissingEndpoint emptyLayer emptyLayer)
      = false ∧
    Validate true (resolveConfig fileLayerMissingEndpoint emptyLayer emptyLayer)
      = true :=
  claim_C7_identity_required_unless_tunneling_only
    (resolveConfig fileLayerMissingEndpoint emptyLayer emptyLayer) (by decide)

/-- Claim C8 counterexample: validation does not fail when tunneling is
enabled and neither a port nor a mappable service is resolvable — the
`SecureTunnelingMinimumConfig` input (tunneling enabled, no port, no service)
validates successfully, refuting the claim's validation-failure clause. -/
theorem claim_C8_counterexample :
    (resolveConfig fileLayerTunneling emptyLayer emptyLayer).tunneling.enabled
      = true ∧
    resolvedPort (resolveConfig fileLayerTunneling emptyLayer emptyLayer).tunneling
      = none ∧
    Validate false (resolveConfig fileLayerTunneling emptyLayer emptyLayer)
      = true := by
  refine ⟨by decide, by decide, by decide⟩

/-- Claim C8 (amended): a tunneling configuration that supplies a service
name but no explicit port resolves to the statically mapped port (service
"SSH" resolves to port 22); an explicit port always takes precedence over the
derived one; and when neither a port nor a mappable service is resolvable,
the resolved port is simply absent — validation does not fail on that
account, since `Validate` imposes no port requirement. -/
theorem claim_C8_port_resolution :
    (∀ t : Tunneling, t.port = none → t.service = some "SSH" →
      resolvedPort t = some 22) ∧
    (∀ (t : Tunneling) (p : Nat), t.port = some p → resolvedPort t = some p) ∧
    (∀ c : PlainConfig, c.tunneling.port = none → c.tunneling.service = none →
      resolvedPort c.tunneling = none ∧ Validate false c = identityPresent c) := by
  refine ⟨fun t hp hs => ?_, fun t p hp => ?_, fun c hp hs => ⟨?_, rfl⟩⟩
  · simp [resolvedPort, hp, hs, GetPortFromService]
  · simp [resolvedPort, hp]
  · simp [resolvedPort, hp, hs]

/-- Concrete check of claim C8: service "SSH" with no port resolves to 22 in
the `SecureTunnelingCli` scenario, and an explicit port wins. -/
theorem claim_C8_witness :
    resolvedPort (resolveConfig fileLayerTunneling cliLayerTunneling
      envLayerTunneling).tunneling = some 22 ∧
    resolvedPort
      { enabled := true
        region := none
        service := some "SSH"
        destinationAccessToken := none
        port := some 2222
        subscribeNotification := true } = some 2222 :=
  ⟨claim_C8_port_resolution.1
      (resolveConfig fileLayerTunneling cliLayerTunneling envLayerTunneling).tunneling
      (by decide) (by decide),
    claim_C8_port_resolution.2.1 _ 2222 rfl⟩

end DeviceClient
